import Mathlib

/-
Verification of the jam repository's bulk-add client (src/frontend) and the
Bulk Membership Job Engine contract it consumes.  Definitions are shallow
embeddings of the TypeScript source: asynchronous loops are modelled as
functions over the finite trace of responses the network delivers, React
state updates as pure state-transition functions.
-/

namespace Jam

/-- Job status enum from jam-api.ts: the five values of the `status` field. -/
inductive JobStatus where
  | pending
  | processing
  | completed
  | failed
  | cancelled
deriving DecidableEq, Repr

/-- The loop condition of both polling loops:
`status === 'pending' || status === 'processing'`. -/
def isActiveStatus : JobStatus → Bool
  | .pending => true
  | .processing => true
  | _ => false

/-- IJobStatusResponse from jam-api.ts.  `progress_pct` is a number the client
only passes along, never computes with; it is modelled as Nat. -/
structure JobStatusResponse where
  job_id : String
  status : JobStatus
  total_items : Nat
  processed_items : Nat
  added_items : Nat
  skipped_items : Nat
  failed_items : Nat
  progress_pct : Nat
  error_message : Option String
deriving DecidableEq, Repr

/-- JavaScript `x || d` on an optional string: undefined and the empty string
are both falsy and yield the default. -/
def jsOrDefault (x : Option String) (d : String) : String :=
  match x with
  | none => d
  | some s => if s = "" then d else s

/-- The post-loop checks of createBulkAddJobWithPolling
(bulk-operations.ts lines 42-50): `failed` throws
`new Error(jobStatus.error_message || 'Job failed')`, `cancelled` throws
`new Error('Job was cancelled')`, anything else is returned. -/
def finishPolling (s : JobStatusResponse) : Except String JobStatusResponse :=
  if s.status = JobStatus.failed then Except.error (jsOrDefault s.error_message ("Job failed"))
  else if s.status = JobStatus.cancelled then Except.error ("Job was cancelled")
  else Except.ok s

/-- The do/while polling loop of createBulkAddJobWithPolling
(bulk-operations.ts lines 32-50), as a function of the finite trace of
responses getJobStatus returns on successive calls.  `none` models the trace
running out while the loop still wants another poll (the loop would keep
waiting); otherwise the result is the value returned or the error thrown. -/
def createBulkAddJobWithPolling : List JobStatusResponse → Option (Except String JobStatusResponse)
  | [] => none
  | s :: rest =>
    if isActiveStatus s.status then createBulkAddJobWithPolling rest
    else some (finishPolling s)

/-- The sequence of status responses the do/while loop of
createBulkAddJobWithPolling actually observes (one per getJobStatus call)
before it exits, given the trace of responses. -/
def observedStatuses : List JobStatusResponse → List JobStatusResponse
  | [] => []
  | s :: rest =>
    if isActiveStatus s.status then s :: observedStatuses rest
    else [s]

/-- The `selection_kind` enum of IBulkAddRequest in jam-api.ts. -/
inductive SelectionKind where
  | explicit
  | all_matching
deriving DecidableEq, Repr

/-- IBulkAddRequest from jam-api.ts, with `selection_data`'s two optional
fields inlined. -/
structure BulkAddRequest where
  source_collection_id : String
  target_collection_id : String
  selection_kind : SelectionKind
  ids : Option (List Int)
  total_at_snapshot : Option Nat
deriving DecidableEq, Repr

/-- The request built by BulkOperationManager.startBulkAdd
(bulk-operations.ts lines 66-73): selectAll picks all_matching with
`total_at_snapshot: 0` (comment: backend will calculate actual count),
otherwise explicit with the selected ids. -/
def startBulkAddRequest (sourceCollectionId targetCollectionId : String)
    (selectedCompanyIds : List Int) (selectAll : Bool) : BulkAddRequest :=
  { source_collection_id := sourceCollectionId
    target_collection_id := targetCollectionId
    selection_kind := if selectAll then SelectionKind.all_matching else SelectionKind.explicit
    ids := if selectAll then none else some selectedCompanyIds
    total_at_snapshot := if selectAll then some 0 else none }

/-- The modal's two radio choices (BulkAddModal.tsx, type SelectionMethod). -/
inductive SelectionMethod where
  | selected
  | all
deriving DecidableEq, Repr

/-- The request object built inside BulkAddModal.handleSubmit
(BulkAddModal.tsx lines 106-114). -/
def handleSubmitRequest (sourceCollectionId selectedTargetCollectionId : String)
    (method : SelectionMethod) (selectedCompanyIds : List Int)
    (totalCompaniesInCollection : Nat) : BulkAddRequest :=
  { source_collection_id := sourceCollectionId
    target_collection_id := selectedTargetCollectionId
    selection_kind := if method = SelectionMethod.all then SelectionKind.all_matching else SelectionKind.explicit
    ids := if method = SelectionMethod.all then none else some selectedCompanyIds
    total_at_snapshot := if method = SelectionMethod.all then some totalCompaniesInCollection else none }

/-- Outcome of one invocation of BulkAddModal.handleSubmit up to the point a
job-creation request goes out: a synchronous rejection via setError, an
abort because the user declined the confirm() dialog of the Add All path, or
the request actually submitted to createBulkAddJobWithPolling. -/
inductive SubmitResult where
  | rejected (msg : String)
  | abortedByUser
  | submitted (req : BulkAddRequest)
deriving DecidableEq, Repr

/-- The guard sequence of BulkAddModal.handleSubmit (BulkAddModal.tsx lines
79-114).  The unselected target is the empty string, exactly as the
`useState<string>('')` initial value makes `!selectedTargetCollectionId`
true precisely on the empty string. -/
def handleSubmit (sourceCollectionId selectedTargetCollectionId : String)
    (method : SelectionMethod) (selectedCompanyIds : List Int)
    (totalCompaniesInCollection : Nat) (confirmAddAll : Bool) : SubmitResult :=
  if selectedTargetCollectionId = "" then
    SubmitResult.rejected ("Please select a target collection")
  else if sourceCollectionId = selectedTargetCollectionId then
    SubmitResult.rejected ("Source and target collections cannot be the same")
  else if method = SelectionMethod.selected ∧ selectedCompanyIds = [] then
    SubmitResult.rejected ("No companies selected. Please select companies or choose \"Add All\"")
  else if method = SelectionMethod.all ∧ confirmAddAll = false then
    SubmitResult.abortedByUser
  else
    SubmitResult.submitted (handleSubmitRequest sourceCollectionId selectedTargetCollectionId
      method selectedCompanyIds totalCompaniesInCollection)

/-- The modal state handleClose touches (BulkAddModal.tsx lines 132-140). -/
structure ModalState where
  selectedTargetCollectionId : String
  selectionMethod : SelectionMethod
  error : Option String
  progress : Nat
  isProcessing : Bool
deriving DecidableEq, Repr

/-- BulkAddModal.handleClose: when not processing it resets the four state
fields and calls onClose; the returned Bool records whether onClose ran. -/
def handleClose (st : ModalState) : ModalState × Bool :=
  if st.isProcessing then (st, false)
  else ({ st with selectedTargetCollectionId := ""
                  selectionMethod := SelectionMethod.selected
                  error := none
                  progress := 0 }, true)

/-- IBulkOperationProgress from bulk-operations.ts lines 7-17. -/
structure BulkOperationProgress where
  jobId : String
  status : JobStatus
  progressPercent : Nat
  totalItems : Nat
  processedItems : Nat
  addedItems : Nat
  skippedItems : Nat
  failedItems : Nat
  errorMessage : Option String
deriving DecidableEq, Repr

/-- The progress object BulkOperationManager.pollJob builds from a status
response (bulk-operations.ts lines 112-122). -/
def toProgress (jobId : String) (s : JobStatusResponse) : BulkOperationProgress :=
  { jobId := jobId
    status := s.status
    progressPercent := s.progress_pct
    totalItems := s.total_items
    processedItems := s.processed_items
    addedItems := s.added_items
    skippedItems := s.skipped_items
    failedItems := s.failed_items
    errorMessage := s.error_message }

/-- The two private fields of BulkOperationManager: `pollInterval` (the
pending window.setTimeout id, null when none) and `onProgressCallback`
(modelled by whether a callback is currently set). -/
structure ManagerState where
  pollInterval : Option Nat
  hasProgressCallback : Bool
deriving DecidableEq, Repr

/-- BulkOperationManager.stopPolling (bulk-operations.ts lines 90-96):
clears the pending timer, if any, and nulls the progress callback. -/
def stopPolling (st : ManagerState) : ManagerState :=
  { st with pollInterval := none
            hasProgressCallback := false }

/-- One getJobStatus call inside pollJob either resolves with a response or
throws (network/HTTP failure), landing in the catch block. -/
inductive PollResult where
  | ok (s : JobStatusResponse)
  | requestError
deriving DecidableEq, Repr

/-- BulkOperationManager.pollJob (bulk-operations.ts lines 108-140) run over
the finite trace of outcomes its successive getJobStatus calls produce.
Per iteration: on a response, the progress callback fires when set, and a
new 1s timer (fresh id `nextTimerId`) is stored iff the status is
pending/processing; on a thrown request the catch block calls stopPolling.
Returns the progress objects delivered to the callback and the final
manager state; an exhausted trace means the in-flight request never
settled, leaving the state as it was. -/
def pollJobRun (jobId : String) : ManagerState → Nat → List PollResult →
    List BulkOperationProgress × ManagerState
  | st, _, [] => ([], st)
  | st, _, (PollResult.requestError :: _) => ([], stopPolling st)
  | st, nextTimerId, (PollResult.ok s :: rest) =>
    let emitted := if st.hasProgressCallback then [toProgress jobId s] else []
    if isActiveStatus s.status then
      let res := pollJobRun jobId { st with pollInterval := some nextTimerId } (nextTimerId + 1) rest
      (emitted ++ res.1, res.2)
    else (emitted, st)

/-- The counter block of a Job record (spec section 3; the same five fields
the status response carries). -/
structure JobCounters where
  total_items : Nat
  processed_items : Nat
  added_items : Nat
  skipped_items : Nat
  failed_items : Nat
deriving DecidableEq, Repr

/-- Counters at the moment processing starts: the resolved total is
recorded, all progress counters are zero (spec section 4.4 step 2). -/
def initCounters (total : Nat) : JobCounters :=
  { total_items := total
    processed_items := 0
    added_items := 0
    skipped_items := 0
    failed_items := 0 }

/-- Modelled from the spec: the Job Executor's per-item accounting (spec
section 4.4 step 3) — the backend engine is absent from src/, only its
boundary types appear in jam-api.ts.  For one id: a duplicate in the target
increments skipped_items, otherwise a successful Add increments added_items
and a failing Add increments failed_items; processed_items is incremented
after each outcome.  The Membership Store is abstracted by the two oracles
`containsInTarget` and `addSucceeds`. -/
def stepItem (containsInTarget addSucceeds : Int → Bool) (c : JobCounters) (id : Int) : JobCounters :=
  let c1 :=
    if containsInTarget id then { c with skipped_items := c.skipped_items + 1 }
    else if addSucceeds id then { c with added_items := c.added_items + 1 }
    else { c with failed_items := c.failed_items + 1 }
  { c1 with processed_items := c1.processed_items + 1 }

/-- Modelled from the spec: the observable counter states of a job (spec
sections 4.4 and 8) — the backend engine is absent from src/.  The executor
records total_items as the resolved sequence's length, then walks the
sequence one item at a time; every observable instant after processing has
started (polling reads, cancellation stops, completion) sees the counters
after some prefix of `k` items. -/
def countersAfter (containsInTarget addSucceeds : Int → Bool) (ids : List Int) (k : Nat) : JobCounters :=
  (ids.take k).foldl (stepItem containsInTarget addSucceeds) (initCounters ids.length)

/-- CompanyTable.handleSelectionChange (CompanyTable.tsx lines 42-52):
keeps previously selected ids that are not on the current page and appends
the grid's new selection (already numeric ids in this model). -/
def handleSelectionChange (currentPageIds selectedCompanyIds newSelection : List Int) : List Int :=
  (selectedCompanyIds.filter (fun id => !(currentPageIds.contains id))) ++ newSelection

/-- The variant of handleSelectionChange in the unnamed source file
(src/unnamed/part_000 lines 41-47), which additionally restricts the new
selection to ids of the current page. -/
def handleSelectionChangeAlt (currentPageIds selectedCompanyIds newSelection : List Int) : List Int :=
  (selectedCompanyIds.filter (fun id => !(currentPageIds.contains id))) ++
    (newSelection.filter (fun id => currentPageIds.contains id))

/-- A mid-run response with an active status, used to instantiate theorems
on concrete polling traces. -/
def sampleProcessing : JobStatusResponse :=
  { job_id := "job-1"
    status := JobStatus.processing
    total_items := 10
    processed_items := 3
    added_items := 2
    skipped_items := 1
    failed_items := 0
    progress_pct := 30
    error_message := none }

/-- A terminal `cancelled` response, used to instantiate theorems on
concrete polling traces. -/
def sampleCancelled : JobStatusResponse :=
  { job_id := "job-1"
    status := JobStatus.cancelled
    total_items := 10
    processed_items := 4
    added_items := 2
    skipped_items := 1
    failed_items := 1
    progress_pct := 40
    error_message := none }

/-- A terminal `failed` response carrying a non-empty error message, used to
instantiate theorems on concrete polling traces. -/
def sampleFailed : JobStatusResponse :=
  { job_id := "job-2"
    status := JobStatus.failed
    total_items := 5
    processed_items := 5
    added_items := 1
    skipped_items := 1
    failed_items := 3
    progress_pct := 100
    error_message := some ("source collection disappeared mid-run") }

/-- A terminal `completed` response, used to instantiate theorems on
concrete polling traces. -/
def sampleCompleted : JobStatusResponse :=
  { job_id := "job-1"
    status := JobStatus.completed
    total_items := 10
    processed_items := 10
    added_items := 8
    skipped_items := 2
    failed_items := 0
    progress_pct := 100
    error_message := none }

/-- The Boolean loop condition on a whole response, as both polling loops
test it. -/
def activePoll (s : JobStatusResponse) : Bool := isActiveStatus s.status

/-- One executor step adds exactly one to processed_items, adds exactly one
to the sum added+skipped+failed, and leaves total_items unchanged. -/
theorem stepItem_counts (ct ad : Int → Bool) (c : JobCounters) (id : Int) :
    (stepItem ct ad c id).processed_items = c.processed_items + 1 ∧
    (stepItem ct ad c id).added_items + (stepItem ct ad c id).skipped_items
        + (stepItem ct ad c id).failed_items
      = c.added_items + c.skipped_items + c.failed_items + 1 ∧
    (stepItem ct ad c id).total_items = c.total_items := by
  unfold stepItem
  by_cases h1 : ct id <;> by_cases h2 : ad id <;> simp [h1, h2] <;> omega

/-- Folding the executor step over a list advances processed_items and the
outcome sum by the list's length and leaves total_items unchanged. -/
theorem foldl_stepItem_counts (ct ad : Int → Bool) (l : List Int) (c : JobCounters) :
    (l.foldl (stepItem ct ad) c).processed_items = c.processed_items + l.length ∧
    (l.foldl (stepItem ct ad) c).added_items + (l.foldl (stepItem ct ad) c).skipped_items
        + (l.foldl (stepItem ct ad) c).failed_items
      = c.added_items + c.skipped_items + c.failed_items + l.length ∧
    (l.foldl (stepItem ct ad) c).total_items = c.total_items := by
  induction l generalizing c with
  | nil => simp
  | cons x xs ih =>
    have hstep := stepItem_counts ct ad c x
    have hrest := ih (stepItem ct ad c x)
    simp only [List.foldl_cons, List.length_cons]
    refine ⟨?_, ?_, ?_⟩ <;> omega

/-- C1: at every observable instant after processing has started — i.e.
after any prefix of `k` items of the resolved sequence, for any behaviour of
the membership store — the job's counters satisfy
processed_items = added_items + skipped_items + failed_items and
processed_items is at most total_items. -/
theorem C1_counters_invariant (containsInTarget addSucceeds : Int → Bool)
    (ids : List Int) (k : Nat) :
    (countersAfter containsInTarget addSucceeds ids k).processed_items
      = (countersAfter containsInTarget addSucceeds ids k).added_items
        + (countersAfter containsInTarget addSucceeds ids k).skipped_items
        + (countersAfter containsInTarget addSucceeds ids k).failed_items ∧
    (countersAfter containsInTarget addSucceeds ids k).processed_items
      ≤ (countersAfter containsInTarget addSucceeds ids k).total_items := by
  obtain ⟨h1, h2, h3⟩ := foldl_stepItem_counts containsInTarget addSucceeds (ids.take k)
    (initCounters ids.length)
  have hlen : (ids.take k).length ≤ ids.length := by
    simp [List.length_take]
  unfold countersAfter
  simp only [initCounters] at h1 h2 h3 ⊢
  omega

/-- C2 counterexample: with a trace whose first (and only) observed status
is `cancelled`, createBulkAddJobWithPolling does not return normally — it
raises the error "Job was cancelled" to the caller. -/
theorem C2_counterexample :
    createBulkAddJobWithPolling [sampleCancelled]
      = some (Except.error ("Job was cancelled")) := by
  rfl

/-- C2 (amended): when the first terminal status observed is `cancelled`,
createBulkAddJobWithPolling stops polling — the observed sequence ends at
that status — but it raises Error("Job was cancelled") to the caller rather
than returning normally. -/
theorem C2_cancelled_raises (pre post : List JobStatusResponse) (s : JobStatusResponse)
    (hpre : ∀ r ∈ pre, isActiveStatus r.status = true)
    (hs : s.status = JobStatus.cancelled) :
    createBulkAddJobWithPolling (pre ++ s :: post)
        = some (Except.error ("Job was cancelled")) ∧
    observedStatuses (pre ++ s :: post) = pre ++ [s] := by
  induction pre with
  | nil =>
    constructor
    · simp [createBulkAddJobWithPolling, hs, isActiveStatus, finishPolling]
    · simp [observedStatuses, hs, isActiveStatus]
  | cons r rest ih =>
    have hr : isActiveStatus r.status = true := hpre r (List.mem_cons_self r rest)
    have hrest : ∀ x ∈ rest, isActiveStatus x.status = true := by
      intro x hx
      exact hpre x (List.mem_cons_of_mem r hx)
    obtain ⟨ih1, ih2⟩ := ih hrest
    constructor
    · simpa [createBulkAddJobWithPolling, hr] using ih1
    · simpa [observedStatuses, hr] using ih2

/-- C2 witness: the amended theorem on the concrete trace
[sampleProcessing, sampleCancelled]. -/
theorem C2_witness :
    createBulkAddJobWithPolling ([sampleProcessing] ++ sampleCancelled :: [])
        = some (Except.error ("Job was cancelled")) ∧
    observedStatuses ([sampleProcessing] ++ sampleCancelled :: [])
        = [sampleProcessing] ++ [sampleCancelled] := by
  refine C2_cancelled_raises [sampleProcessing] [] sampleCancelled ?_ rfl
  intro r hr
  rcases List.mem_singleton.mp hr with rfl
  rfl

/-- C3 counterexample: BulkOperationManager.startBulkAdd never receives the
caller's observed total; with selectAll it builds an all_matching request
whose total_at_snapshot is 0, so a caller observing a source collection of
total 1 submits a snapshot of 0, not 1. -/
theorem C3_counterexample :
    (startBulkAddRequest ("col-src") ("col-tgt") [] true).selection_kind
        = SelectionKind.all_matching ∧
    (startBulkAddRequest ("col-src") ("col-tgt") [] true).total_at_snapshot = some 0 ∧
    some 0 ≠ some 1 := by
  refine ⟨rfl, rfl, by simp⟩

/-- C3 (amended): an all_matching request built by the modal's handleSubmit
carries total_at_snapshot equal to totalCompaniesInCollection, the total the
caller observed at submission time; an all_matching request built by
BulkOperationManager.startBulkAdd instead always carries total_at_snapshot
= 0, a placeholder for the backend to recompute. -/
theorem C3_snapshot_amended (src tgt : String) (ids : List Int) (total : Nat) :
    (handleSubmitRequest src tgt SelectionMethod.all ids total).selection_kind
        = SelectionKind.all_matching ∧
    (handleSubmitRequest src tgt SelectionMethod.all ids total).total_at_snapshot
        = some total ∧
    (startBulkAddRequest src tgt ids true).selection_kind = SelectionKind.all_matching ∧
    (startBulkAddRequest src tgt ids true).total_at_snapshot = some 0 := by
  refine ⟨rfl, rfl, rfl, rfl⟩

/-- pollJobRun with a callback set emits, over a trace of successful
responses, exactly the progress objects for the all-active prefix followed
by the first terminal response; the timer id and stored pollInterval do not
affect what is emitted. -/
theorem pollJobRun_ok_emissions (jobId : String) (timer : Option Nat) (n : Nat)
    (polls : List JobStatusResponse) :
    (pollJobRun jobId { pollInterval := timer, hasProgressCallback := true } n
        (polls.map PollResult.ok)).1
      = (polls.takeWhile activePoll ++ (polls.dropWhile activePoll).take 1).map
          (toProgress jobId) := by
  induction polls generalizing timer n with
  | nil => rfl
  | cons s rest ih =>
    by_cases hs : isActiveStatus s.status
    · have hrec := ih (some n) (n + 1)
      simp [pollJobRun, hs, activePoll, hrec]
    · simp [pollJobRun, hs, activePoll]

/-- C4: each polling loop issues a further status query after an observed
status exactly when that status is pending or processing.  Equivalently,
over any response trace, the statuses observed by the do/while loop of
createBulkAddJobWithPolling — and the progress reports pollJob delivers —
are the all-active prefix of the trace followed by the first terminal
response, after which no further query occurs. -/
theorem C4_poll_until_terminal (jobId : String) (polls : List JobStatusResponse) :
    observedStatuses polls
        = polls.takeWhile activePoll ++ (polls.dropWhile activePoll).take 1 ∧
    (pollJobRun jobId { pollInterval := none, hasProgressCallback := true } 1
        (polls.map PollResult.ok)).1
      = (polls.takeWhile activePoll ++ (polls.dropWhile activePoll).take 1).map
          (toProgress jobId) := by
  constructor
  · induction polls with
    | nil => rfl
    | cons s rest ih =>
      by_cases hs : isActiveStatus s.status
      · simp [observedStatuses, hs, activePoll, ih]
      · simp [observedStatuses, hs, activePoll]
  · exact pollJobRun_ok_emissions jobId none 1 polls

/-- C5: when the first terminal status observed is `failed` and its
error_message is a non-empty string — the backend guarantees a failed job
always carries one — createBulkAddJobWithPolling raises an error whose
message is exactly that error_message. -/
theorem C5_failed_error_message (pre post : List JobStatusResponse)
    (s : JobStatusResponse) (m : String)
    (hpre : ∀ r ∈ pre, isActiveStatus r.status = true)
    (hs : s.status = JobStatus.failed)
    (hm : s.error_message = some m) (hne : m ≠ "") :
    createBulkAddJobWithPolling (pre ++ s :: post) = some (Except.error m) := by
  induction pre with
  | nil =>
    simp [createBulkAddJobWithPolling, hs, isActiveStatus, finishPolling,
      jsOrDefault, hm, hne]
  | cons r rest ih =>
    have hr : isActiveStatus r.status = true := hpre r (List.mem_cons_self r rest)
    have hrest : ∀ x ∈ rest, isActiveStatus x.status = true := by
      intro x hx
      exact hpre x (List.mem_cons_of_mem r hx)
    simpa [createBulkAddJobWithPolling, hr] using ih hrest

/-- C5 witness: the theorem on the concrete trace
[sampleProcessing, sampleFailed]. -/
theorem C5_witness :
    createBulkAddJobWithPolling ([sampleProcessing] ++ sampleFailed :: [])
      = some (Except.error ("source collection disappeared mid-run")) := by
  refine C5_failed_error_message [sampleProcessing] [] sampleFailed
    ("source collection disappeared mid-run") ?_ rfl rfl (by simp)
  intro r hr
  rcases List.mem_singleton.mp hr with rfl
  rfl

/-- C6: handleSubmit issues a job-creation request only when a target is
selected, the source differs from the target, and (on the explicit
selection method) the selected id list is non-empty; when any of these
fails, the submission is rejected synchronously with a non-empty error
message and no request is built. -/
theorem C6_submit_validation (src tgt : String) (method : SelectionMethod)
    (ids : List Int) (total : Nat) (confirmAddAll : Bool) :
    (∀ req, handleSubmit src tgt method ids total confirmAddAll
          = SubmitResult.submitted req →
        tgt ≠ "" ∧ src ≠ tgt ∧ (method = SelectionMethod.selected → ids ≠ [])) ∧
    ((tgt = "" ∨ src = tgt ∨ (method = SelectionMethod.selected ∧ ids = [])) →
        ∃ msg, msg ≠ "" ∧ handleSubmit src tgt method ids total confirmAddAll
          = SubmitResult.rejected msg) := by
  constructor
  · intro req hreq
    by_cases h1 : tgt = ""
    · simp [handleSubmit, h1] at hreq
    by_cases h2 : src = tgt
    · simp [handleSubmit, h1, h2] at hreq
    by_cases h3 : method = SelectionMethod.selected ∧ ids = []
    · simp [handleSubmit, h1, h2, h3] at hreq
    · exact ⟨h1, h2, fun hm hi => h3 ⟨hm, hi⟩⟩
  · intro hbad
    by_cases h1 : tgt = ""
    · exact ⟨"Please select a target collection", by simp, by simp [handleSubmit, h1]⟩
    by_cases h2 : src = tgt
    · exact ⟨"Source and target collections cannot be the same", by simp,
        by simp [handleSubmit, h1, h2]⟩
    have h3 : method = SelectionMethod.selected ∧ ids = [] := by tauto
    exact ⟨"No companies selected. Please select companies or choose \"Add All\"",
      by simp, by simp [handleSubmit, h1, h2, h3]⟩

/-- C6 witness: submitting with no target selected is rejected with a
non-empty message. -/
theorem C6_witness :
    ∃ msg, msg ≠ "" ∧ handleSubmit ("col-src") "" SelectionMethod.selected [] 0 true
      = SubmitResult.rejected msg :=
  (C6_submit_validation ("col-src") "" SelectionMethod.selected [] 0 true).2 (Or.inl rfl)

/-- C7: every request the client builds populates exactly one selection_data
field consistently with its selection_kind — ids defined and snapshot absent
for `explicit`, snapshot defined and ids absent for `all_matching` — for
both builders (modal handleSubmit and BulkOperationManager.startBulkAdd),
over all inputs. -/
theorem C7_exactly_one_selection_field (src tgt : String) (method : SelectionMethod)
    (ids : List Int) (total : Nat) (selectedIds : List Int) (selectAll : Bool) :
    (let r := handleSubmitRequest src tgt method ids total
     (r.selection_kind = SelectionKind.explicit ∧ r.ids.isSome
        ∧ r.total_at_snapshot = none) ∨
     (r.selection_kind = SelectionKind.all_matching ∧ r.total_at_snapshot.isSome
        ∧ r.ids = none)) ∧
    (let r := startBulkAddRequest src tgt selectedIds selectAll
     (r.selection_kind = SelectionKind.explicit ∧ r.ids.isSome
        ∧ r.total_at_snapshot = none) ∨
     (r.selection_kind = SelectionKind.all_matching ∧ r.total_at_snapshot.isSome
        ∧ r.ids = none)) := by
  cases method <;> cases selectAll <;>
    simp [handleSubmitRequest, startBulkAddRequest]

/-- C8: if a status query inside pollJob throws after any run of successful
active-status polls, the manager ends with the pending timer cleared and the
progress callback nulled, delivers no callback for the failing query or
anything after it (at most one callback per successful poll before the
failure), and the run is insensitive to whatever the trace holds beyond the
failure. -/
theorem C8_error_stops_polling (jobId : String) (st : ManagerState) (n : Nat)
    (pre post : List PollResult)
    (hpre : ∀ r ∈ pre, ∃ s, r = PollResult.ok s ∧ isActiveStatus s.status = true) :
    (pollJobRun jobId st n (pre ++ PollResult.requestError :: post)).2
        = { pollInterval := none, hasProgressCallback := false } ∧
    (pollJobRun jobId st n (pre ++ PollResult.requestError :: post)).1.length
        ≤ pre.length ∧
    pollJobRun jobId st n (pre ++ PollResult.requestError :: post)
        = pollJobRun jobId st n (pre ++ [PollResult.requestError]) := by
  induction pre generalizing st n with
  | nil =>
    refine ⟨?_, ?_, ?_⟩ <;> simp [pollJobRun, stopPolling]
  | cons r rest ih =>
    obtain ⟨s, rfl, hs⟩ := hpre (r) (List.mem_cons_self r rest)
    have hrest : ∀ x ∈ rest, ∃ s2, x = PollResult.ok s2 ∧ isActiveStatus s2.status = true := by
      intro x hx
      exact hpre x (List.mem_cons_of_mem _ hx)
    obtain ⟨ti, cb⟩ := st
    obtain ⟨ih1, ih2, ih3⟩ :=
      ih { pollInterval := some n, hasProgressCallback := cb } (n + 1) hrest
    refine ⟨?_, ?_, ?_⟩
    · simpa [pollJobRun, hs] using ih1
    · cases cb <;> simp [pollJobRun, hs] <;> omega
    · simp [pollJobRun, hs, ih3]

/-- C8 witness: the theorem on the concrete trace of one successful active
poll, then a thrown request, then a response that is never consumed. -/
theorem C8_witness :
    (pollJobRun ("job-1") { pollInterval := none, hasProgressCallback := true } 1
        ([PollResult.ok sampleProcessing]
          ++ PollResult.requestError :: [PollResult.ok sampleCompleted])).2
        = { pollInterval := none, hasProgressCallback := false } ∧
    (pollJobRun ("job-1") { pollInterval := none, hasProgressCallback := true } 1
        ([PollResult.ok sampleProcessing]
          ++ PollResult.requestError :: [PollResult.ok sampleCompleted])).1.length
        ≤ [PollResult.ok sampleProcessing].length ∧
    pollJobRun ("job-1") { pollInterval := none, hasProgressCallback := true } 1
        ([PollResult.ok sampleProcessing]
          ++ PollResult.requestError :: [PollResult.ok sampleCompleted])
      = pollJobRun ("job-1") { pollInterval := none, hasProgressCallback := true } 1
          ([PollResult.ok sampleProcessing] ++ [PollResult.requestError]) := by
  refine C8_error_stops_polling ("job-1") _ 1 [PollResult.ok sampleProcessing]
    [PollResult.ok sampleCompleted] ?_
  intro r hr
  rcases List.mem_singleton.mp hr with rfl
  exact ⟨sampleProcessing, rfl, rfl⟩

/-- C9: while a bulk-add operation is processing, handleClose leaves the
modal state untouched and does not invoke onClose. -/
theorem C9_close_noop_while_processing (st : ModalState)
    (h : st.isProcessing = true) :
    handleClose st = (st, false) := by
  simp [handleClose, h]

/-- C9 witness: the theorem on a concrete mid-run modal state. -/
theorem C9_witness :
    handleClose { selectedTargetCollectionId := "col-tgt"
                  selectionMethod := SelectionMethod.all
                  error := some ("boom")
                  progress := 50
                  isProcessing := true }
      = ({ selectedTargetCollectionId := "col-tgt"
           selectionMethod := SelectionMethod.all
           error := some ("boom")
           progress := 50
           isProcessing := true }, false) :=
  C9_close_noop_while_processing _ rfl

/-- C10: both versions of CompanyTable.handleSelectionChange keep every
previously selected id that is not among the current page's ids. -/
theorem C10_cross_page_preserved (currentPageIds selectedCompanyIds newSelection : List Int)
    (id : Int) (hsel : id ∈ selectedCompanyIds) (hnot : id ∉ currentPageIds) :
    id ∈ handleSelectionChange currentPageIds selectedCompanyIds newSelection ∧
    id ∈ handleSelectionChangeAlt currentPageIds selectedCompanyIds newSelection := by
  have hmem : id ∈ selectedCompanyIds.filter (fun x => !(currentPageIds.contains x)) := by
    refine List.mem_filter.mpr ⟨hsel, ?_⟩
    simpa using hnot
  constructor
  · exact List.mem_append_left _ hmem
  · exact List.mem_append_left _ hmem

/-- C10 witness: id 5, selected on a previous page, survives a selection
change on a page showing ids 1 and 2. -/
theorem C10_witness :
    (5 : Int) ∈ handleSelectionChange [1, 2] [5] [2] ∧
    (5 : Int) ∈ handleSelectionChangeAlt [1, 2] [5] [2] :=
  C10_cross_page_preserved [1, 2] [5] [2] 5 (by simp) (by simp)

end Jam
